import Mathlib

/-!
Verification development for the stock_datascraping repository.

The repository has two source files, `app.py` and `app3.py`, each containing
three core functions that this file embeds shallowly:

* `get_yahoo_symbol_via_api` (symbol resolver): builds a search request,
  scans the JSON `quotes` list for the first candidate whose `exchange` is
  `"NSI"` or `"BSE"`, returns its `symbol`; returns `None` on any failure.
  The two variants differ only in the request `timeout` parameter
  (`app3.py` passes `timeout=5`, `app.py` passes none).
* `fetch_single_stock` (quote fetcher): builds a per-symbol record dict.
  The `app3.py` variant short-circuits on falsy/NA symbols and rounds
  today's high/low to 2 decimals; the `app.py` variant has no precondition
  check and no rounding, and uses key `"Date"` instead of `"Scraped At"`.
* `fetch_yahoo_tickers_parallel` (parallel mapper): submits one task per
  row, keeps a futures->index map, and as each future completes writes its
  result (or `None` on exception) into `results[idx]`.

Network effects are embedded as explicit inputs: the search response, the
market-data provider outcome, and the thread-pool completion order are
parameters, and each fetch function also reports whether the provider was
consulted, so that "no network call is made" is a provable statement.
Python dict literals are embedded as key/value lists, numbers as `ℚ`.
-/

namespace StockScrape

/-- Python runtime values that can appear in the record dicts or as the
`symbol` argument: strings, numbers, `None`, and the float `NaN` that
pandas uses for missing cells. -/
inductive PyVal where
  | str (s : String)
  | num (q : ℚ)
  | none
  | nan
deriving DecidableEq, Repr

/-- Python truthiness of a `PyVal` (`bool(x)`): empty string and zero are
falsy, `None` is falsy, `NaN` is truthy. -/
def truthy : PyVal → Bool
  | .str s => s != ""
  | .num q => q != 0
  | .none => false
  | .nan => true

/-- `pd.isna(x)`: true exactly for `None` and `NaN`. -/
def isna : PyVal → Bool
  | .none => true
  | .nan => true
  | _ => false

/-- Round half to even (Python's `round` tie-breaking rule), computed on
the numerator and denominator: `f` is the floor of `x`, and the fractional
remainder `(x.num - f * x.den) / x.den` is compared against `1/2` by
cross-multiplying with the positive denominator. -/
def roundHalfEven (x : ℚ) : ℤ :=
  let f : ℤ := Int.fdiv x.num x.den
  let r2 : ℤ := 2 * (x.num - f * x.den)
  if r2 < (x.den : ℤ) then f
  else if (x.den : ℤ) < r2 then f + 1
  else if f % 2 = 0 then f else f + 1

/-- Python's `round(x, 2)` on rationals: scale by 100 (as a fraction of
integers, so the definition evaluates by kernel reduction), round half to
even, and scale back. -/
def pyRound2 (x : ℚ) : ℚ :=
  Rat.divInt (roundHalfEven (Rat.divInt (x.num * 100) x.den)) 100

/-- The snapshot `ticker.info` dict, restricted to the three keys the code
reads; a key that is absent from the provider's response is `Option.none`. -/
structure Info where
  regularMarketPrice : Option ℚ
  fiftyTwoWeekHigh : Option ℚ
  fiftyTwoWeekLow : Option ℚ
deriving DecidableEq, Repr

/-- `info.get(key, "N/A")`: the present value, or the `"N/A"` sentinel.
Both variants pass the same `"N/A"` default for all three snapshot keys. -/
def infoGet : Option ℚ → PyVal
  | Option.some q => .num q
  | Option.none => .str "N/A"

/-- One row of the `ticker.history(...)` dataframe (the two columns read). -/
structure OhlcRow where
  high : ℚ
  low : ℚ
deriving DecidableEq, Repr

/-- Outcome of the market-data provider interaction inside the `try` block:
either the snapshot and the (possibly empty) history window, or an
exception somewhere during `yf.Ticker` / `.info` / `.history`. -/
inductive ProviderResult where
  | ok (info : Info) (hist : List OhlcRow)
  | err
deriving Repr

/-- `app3.py`: today's high/low pair. `hist.empty` corresponds to
`hist.getLast? = none`; otherwise `row = hist.iloc[-1]` is the last row and
both values are rounded to 2 decimals. -/
def todayRange3 (hist : List OhlcRow) : PyVal × PyVal :=
  match hist.getLast? with
  | Option.none => (.str "N/A", .str "N/A")
  | Option.some row => (.num (pyRound2 row.high), .num (pyRound2 row.low))

/-- `app.py`: `hist['High'].iloc[-1] if not hist.empty else "N/A"` (no
rounding). -/
def todayHigh1 (hist : List OhlcRow) : PyVal :=
  match hist.getLast? with
  | Option.none => .str "N/A"
  | Option.some row => .num row.high

/-- `app.py`: `hist['Low'].iloc[-1] if not hist.empty else "N/A"` (no
rounding). -/
def todayLow1 (hist : List OhlcRow) : PyVal :=
  match hist.getLast? with
  | Option.none => .str "N/A"
  | Option.some row => .num row.low

/-- `fetch_single_stock` from `src/app3.py` (lines 33-77). The returned
pair is the record dict (as a key/value list, in the dict-literal order)
together with a flag telling whether the market-data provider was
consulted (`yf.Ticker`/`.info`/`.history` reached). The timestamp string
`datetime.now().strftime(...)` is passed in as `now`. -/
def fetch_single_stock_app3 (symbol isin : PyVal) (provider : ProviderResult)
    (now : String) : List (String × PyVal) × Bool :=
  if !truthy symbol || isna symbol then
    ([("ISIN", isin), ("Symbol", symbol),
      ("Current Price", .str "Invalid Symbol"),
      ("52‑Week High", .str "Invalid"),
      ("52‑Week Low", .str "Invalid"),
      ("Today\x27s High", .str "Invalid"),
      ("Today\x27s Low", .str "Invalid"),
      ("Scraped At", .str now)], false)
  else
    match provider with
    | .ok info hist =>
        ([("ISIN", isin), ("Symbol", symbol),
          ("Current Price", infoGet info.regularMarketPrice),
          ("52‑Week High", infoGet info.fiftyTwoWeekHigh),
          ("52‑Week Low", infoGet info.fiftyTwoWeekLow),
          ("Today\x27s High", (todayRange3 hist).1),
          ("Today\x27s Low", (todayRange3 hist).2),
          ("Scraped At", .str now)], true)
    | .err =>
        ([("ISIN", isin), ("Symbol", symbol),
          ("Current Price", .str "Error"),
          ("52‑Week High", .str "Error"),
          ("52‑Week Low", .str "Error"),
          ("Today\x27s High", .str "Error"),
          ("Today\x27s Low", .str "Error"),
          ("Scraped At", .str now)], true)

/-- `fetch_single_stock` from `src/app.py` (lines 26-52). There is no
precondition check on `symbol`: the `try` block always constructs the
ticker and reads `.info`, so the provider is consulted on every call. The
date string `datetime.today().strftime('%Y-%m-%d')` is passed in as
`today`. -/
def fetch_single_stock_app (symbol isin : PyVal) (provider : ProviderResult)
    (today : String) : List (String × PyVal) × Bool :=
  match provider with
  | .ok info hist =>
      ([("ISIN", isin), ("Symbol", symbol),
        ("Current Price", infoGet info.regularMarketPrice),
        ("52 Week High", infoGet info.fiftyTwoWeekHigh),
        ("52 Week Low", infoGet info.fiftyTwoWeekLow),
        ("Today\x27s High", todayHigh1 hist),
        ("Today\x27s Low", todayLow1 hist),
        ("Date", .str today)], true)
  | .err =>
      ([("ISIN", isin), ("Symbol", symbol),
        ("Current Price", .str "Error"),
        ("52 Week High", .str "Error"),
        ("52 Week Low", .str "Error"),
        ("Today\x27s High", .str "Error"),
        ("Today\x27s Low", .str "Error"),
        ("Date", .str today)], true)

/-- The spec's `status` observation on a record: the code encodes
`invalidSymbol` / `error` / `ok` through the sentinel stored in the
`"Current Price"` field (`"Invalid Symbol"` on the short-circuit branch,
`"Error"` on the exception branch, a number or `"N/A"` otherwise). -/
def statusOf (r : List (String × PyVal)) : String :=
  if r.lookup "Current Price" = Option.some (PyVal.str "Invalid Symbol") then
    "invalidSymbol"
  else if r.lookup "Current Price" = Option.some (PyVal.str "Error") then
    "error"
  else "ok"

/-- One candidate of the search response's `quotes` array; `item.get(...)`
yields `Option.none` when the key is absent. -/
structure SearchQuote where
  exchange : Option String
  symbol : Option String
deriving DecidableEq, Repr

/-- What the symbol-search HTTP interaction can produce: any exception
(network failure, timeout, `r.json()` on a malformed body) — all caught by
the bare `except` — or a parsed JSON body, whose `data.get("quotes", [])`
list is the payload. -/
inductive SearchResponse where
  | failure
  | success (quotes : List SearchQuote)
deriving Repr

/-- `item.get("exchange") in ["NSI", "BSE"]`. -/
def isAcceptedExchange (e : Option String) : Bool :=
  e == Option.some "NSI" || e == Option.some "BSE"

/-- The `for item in data.get("quotes", [])` loop of
`get_yahoo_symbol_via_api`: returns the `symbol` field of the first
candidate with an accepted exchange, `None` when no candidate matches. -/
def selectSymbol : List SearchQuote → Option String
  | [] => Option.none
  | q :: rest =>
      if isAcceptedExchange q.exchange then q.symbol else selectSymbol rest

/-- `get_yahoo_symbol_via_api` from `src/app.py` (lines 12-24) and
`src/app3.py` (lines 18-30): the two variants have identical result logic
(they differ only in the request timeout, embedded separately below). -/
def get_yahoo_symbol_via_api : SearchResponse → Option String
  | .failure => Option.none
  | .success quotes => selectSymbol quotes

/-- An outbound HTTP GET as `requests.get` receives it: url, the
`User-Agent` header, and the optional `timeout=` argument (seconds). -/
structure HttpGet where
  url : String
  userAgent : String
  timeout : Option ℚ
deriving DecidableEq, Repr

/-- The search request issued by `get_yahoo_symbol_via_api` in `src/app.py`
(line 17): `requests.get(url, headers=headers)` — no timeout argument. -/
def searchRequest_app (companyName : String) : HttpGet :=
  { url := "https://query2.finance.yahoo.com/v1/finance/search?q=" ++
      companyName.replace " " "%20",
    userAgent := "Mozilla/5.0",
    timeout := Option.none }

/-- The search request issued by `get_yahoo_symbol_via_api` in
`src/app3.py` (line 23): `requests.get(url, headers=headers, timeout=5)`. -/
def searchRequest_app3 (companyName : String) : HttpGet :=
  { url := "https://query2.finance.yahoo.com/v1/finance/search?q=" ++
      companyName.replace " " "%20",
    userAgent := "Mozilla/5.0",
    timeout := Option.some 5 }

/-- `try: results[idx] = future.result() except: results[idx] = None`:
the slot written for a completed task, given the task's outcome. -/
def slotOf {α : Type} : Except Unit α → Option α
  | .ok v => Option.some v
  | .error _ => Option.none

/-- `fetch_yahoo_tickers_parallel` from `src/app.py` (lines 54-67) and
`src/app3.py` (lines 80-91) (both variants have the same collection
logic). `n` is `len(df)`; task `i` was submitted for row `i` and its
outcome is `outcome i` (`.error` when `future.result()` raises);
`completionOrder` is the order in which `as_completed` yields the futures
— a permutation of `0..n-1` chosen by the scheduler. Starting from
`results = [None] * n`, each completion writes `results[idx]` for its own
submission index `idx = futures[future]`. -/
def fetch_yahoo_tickers_parallel {α : Type} (n : ℕ)
    (outcome : ℕ → Except Unit α) (completionOrder : List ℕ) :
    List (Option α) :=
  completionOrder.foldl
    (fun results idx => results.set idx (slotOf (outcome idx)))
    (List.replicate n Option.none)

/-! ## Helper lemmas -/

/-- The collection loop never changes the length of `results`. -/
lemma parallel_foldl_length {α : Type} (outcome : ℕ → Except Unit α)
    (order : List ℕ) :
    ∀ acc : List (Option α),
      (order.foldl (fun results idx => results.set idx (slotOf (outcome idx)))
        acc).length = acc.length := by
  induction order with
  | nil => intro acc; rfl
  | cons j rest ih => intro acc; rw [List.foldl_cons, ih, List.length_set]

/-- After the collection loop, slot `i` holds task `i`'s own outcome if `i`
was among the completed indices, and is untouched otherwise — whatever the
completion order was. -/
lemma parallel_foldl_getElem {α : Type} (outcome : ℕ → Except Unit α)
    (order : List ℕ) :
    ∀ (acc : List (Option α)) (i : ℕ), i < acc.length →
      (order.foldl (fun results idx => results.set idx (slotOf (outcome idx)))
          acc)[i]? =
        if i ∈ order then Option.some (slotOf (outcome i)) else acc[i]? := by
  induction order with
  | nil => intro acc i hi; simp
  | cons j rest ih =>
      intro acc i hi
      rw [List.foldl_cons, ih _ i (by simpa using hi)]
      by_cases hij : i = j
      · subst hij
        by_cases hmem : i ∈ rest
        · simp [hmem]
        · simp [hmem, List.getElem?_set_self hi]
      · by_cases hmem : i ∈ rest
        · simp [hmem]
        · rw [List.getElem?_set_ne (Ne.symm hij)]
          simp [List.mem_cons, hij, hmem]

/-- A scan that finds no accepted exchange returns `None`. -/
lemma selectSymbol_eq_none_of_no_accepted :
    ∀ quotes : List SearchQuote,
      (∀ q ∈ quotes, isAcceptedExchange q.exchange = false) →
      selectSymbol quotes = Option.none
  | [], _ => rfl
  | q :: rest, hall => by
      have hq : isAcceptedExchange q.exchange = false := hall q (by simp)
      rw [selectSymbol, if_neg (by simp [hq])]
      exact selectSymbol_eq_none_of_no_accepted rest
        (fun r hr => hall r (by simp [hr]))

/-- The scan loop agrees with "first candidate satisfying the accepted
predicate, then its `symbol` field". -/
lemma selectSymbol_eq_findAccepted (quotes : List SearchQuote) :
    selectSymbol quotes =
      (quotes.find? (fun c => isAcceptedExchange c.exchange)).bind
        SearchQuote.symbol := by
  induction quotes with
  | nil => rfl
  | cons q rest ih =>
      by_cases h : isAcceptedExchange q.exchange
      · rw [selectSymbol, if_pos (by simp [h])]
        simp [List.find?, h]
      · rw [selectSymbol, if_neg (by simp [h]), ih]
        simp [List.find?, h]

/-! ## Claims -/

/-- Claim C2 (confirmed): over `n` submitted rows, the parallel mapper
returns a list of length `n` whose element at index `i` is the outcome of
input row `i`'s own task — for every completion order (any permutation of
the submitted indices), because each result is stored under the submission
index carried in the futures map, not by arrival position. -/
theorem parallel_results_match_submission_index {α : Type} (n : ℕ)
    (outcome : ℕ → Except Unit α) (order : List ℕ) (i : ℕ)
    (hperm : order.Perm (List.range n)) (hi : i < n) :
    (fetch_yahoo_tickers_parallel n outcome order).length = n ∧
    (fetch_yahoo_tickers_parallel n outcome order)[i]? =
      Option.some (slotOf (outcome i)) := by
  constructor
  · rw [fetch_yahoo_tickers_parallel, parallel_foldl_length,
      List.length_replicate]
  · rw [fetch_yahoo_tickers_parallel,
      parallel_foldl_getElem outcome order _ i (by simpa using hi),
      if_pos (hperm.mem_iff.mpr (List.mem_range.mpr hi))]

/-- Witness for C2 at a concrete input: three rows, completion order
`[2, 0, 1]`, task 1 failing. -/
theorem parallel_results_match_submission_index_witness :
    (fetch_yahoo_tickers_parallel 3
      (fun i => if i == 1 then Except.error () else Except.ok i)
      [2, 0, 1]).length = 3 ∧
    (fetch_yahoo_tickers_parallel 3
      (fun i => if i == 1 then Except.error () else Except.ok i)
      [2, 0, 1])[2]? = Option.some (Option.some 2) :=
  parallel_results_match_submission_index 3 _ [2, 0, 1] 2 (by decide)
    (by decide)

/-- Claim C3 (confirmed): if task `k` fails (its `future.result()`
raises), its slot is `None`, and any other task `j` that succeeded with
value `v` still has its correct result in slot `j`, for every completion
order. -/
theorem parallel_failure_isolated {α : Type} (n : ℕ)
    (outcome : ℕ → Except Unit α) (order : List ℕ) (k j : ℕ) (v : α)
    (hperm : order.Perm (List.range n)) (hk : k < n)
    (hfail : outcome k = Except.error ()) (hj : j < n) (hjk : j ≠ k)
    (hok : outcome j = Except.ok v) :
    (fetch_yahoo_tickers_parallel n outcome order)[k]? =
      Option.some Option.none ∧
    (fetch_yahoo_tickers_parallel n outcome order)[j]? =
      Option.some (Option.some v) := by
  constructor
  · rw [fetch_yahoo_tickers_parallel,
      parallel_foldl_getElem outcome order _ k (by simpa using hk),
      if_pos (hperm.mem_iff.mpr (List.mem_range.mpr hk)), hfail]
    rfl
  · rw [fetch_yahoo_tickers_parallel,
      parallel_foldl_getElem outcome order _ j (by simpa using hj),
      if_pos (hperm.mem_iff.mpr (List.mem_range.mpr hj)), hok]
    rfl

/-- Witness for C3 at a concrete input: three rows, task 1 failing, its
sibling task 2 still produces its own value. -/
theorem parallel_failure_isolated_witness :
    (fetch_yahoo_tickers_parallel 3
      (fun i => if i == 1 then Except.error () else Except.ok i)
      [2, 0, 1])[1]? = Option.some Option.none ∧
    (fetch_yahoo_tickers_parallel 3
      (fun i => if i == 1 then Except.error () else Except.ok i)
      [2, 0, 1])[2]? = Option.some (Option.some 2) :=
  parallel_failure_isolated 3 _ [2, 0, 1] 1 2 2 (by decide) (by decide)
    (by rfl) (by decide) (by decide) (by rfl)

/-- Claim C4 (confirmed): on a parsed response the resolver returns the
`symbol` of the first candidate (in response order) whose `exchange` is in
the two-element accepted set, with no tie-break; and candidates after the
first accepted one are never consulted — replacing everything after an
accepted candidate leaves the result unchanged. -/
theorem resolver_picks_first_accepted_candidate
    (quotes pre post post2 : List SearchQuote) (q : SearchQuote)
    (hq : isAcceptedExchange q.exchange = true) :
    get_yahoo_symbol_via_api (SearchResponse.success quotes) =
      (quotes.find? (fun c => isAcceptedExchange c.exchange)).bind
        SearchQuote.symbol ∧
    selectSymbol (pre ++ q :: post) = selectSymbol (pre ++ q :: post2) := by
  refine ⟨selectSymbol_eq_findAccepted quotes, ?_⟩
  induction pre with
  | nil => simp [selectSymbol, hq]
  | cons p rest ih =>
      by_cases hp : isAcceptedExchange p.exchange <;>
        simp [selectSymbol, hp, ih]

/-- Witness for C4 at a concrete input: the NSI candidate sitting after a
foreign-exchange candidate is selected, and the tail after an accepted
candidate is irrelevant. -/
theorem resolver_picks_first_accepted_candidate_witness :
    get_yahoo_symbol_via_api (SearchResponse.success
      [⟨Option.some "NYQ", Option.some "EXMP"⟩,
        ⟨Option.some "NSI", Option.some "EXMP.NS"⟩,
        ⟨Option.some "BSE", Option.some "EXMP.BO"⟩]) =
      Option.some "EXMP.NS" ∧
    selectSymbol ([⟨Option.some "NYQ", Option.some "A"⟩] ++
        ⟨Option.some "NSI", Option.some "B.NS"⟩ :: []) =
      selectSymbol ([⟨Option.some "NYQ", Option.some "A"⟩] ++
        ⟨Option.some "NSI", Option.some "B.NS"⟩ ::
          [⟨Option.some "BSE", Option.some "C.BO"⟩]) :=
  resolver_picks_first_accepted_candidate _ _ _ _ _ (by decide)

/-- Claim C5 (confirmed): every failure path of the resolver — any
exception during the request or JSON parsing (network failure, malformed
body, timeout), or a parsed response with no accepted-exchange candidate —
produces `None`; the bare `except` converts every raise into the `None`
return, so nothing escapes to the caller. -/
theorem resolver_failure_paths_return_absent (resp : SearchResponse)
    (quotes : List SearchQuote)
    (h : resp = SearchResponse.failure ∨
      (resp = SearchResponse.success quotes ∧
        ∀ q ∈ quotes, isAcceptedExchange q.exchange = false)) :
    get_yahoo_symbol_via_api resp = Option.none := by
  rcases h with h | ⟨h, hall⟩
  · rw [h]; rfl
  · rw [h]
    exact selectSymbol_eq_none_of_no_accepted quotes hall

/-- Witness for C5 at concrete inputs: an exception-producing interaction,
applied through the theorem itself. -/
theorem resolver_failure_paths_return_absent_witness :
    get_yahoo_symbol_via_api SearchResponse.failure = Option.none :=
  resolver_failure_paths_return_absent SearchResponse.failure []
    (Or.inl rfl)

/-- Claim C1 (corrected, amended): in the `app3.py` variant, a falsy
(empty/`None`) or NA (`None`/`NaN`) symbol short-circuits
`fetch_single_stock`: the returned record has every metric field set to
the invalid sentinel, its status reads `invalidSymbol`, and the provider
is not consulted. The `app.py` variant of `fetch_single_stock` has no such
precondition check: it consults the provider on every call, whatever the
symbol. -/
theorem invalid_symbol_short_circuits_app3_only
    (symbol isin : PyVal) (provider : ProviderResult) (now : String)
    (h : (!truthy symbol || isna symbol) = true) :
    fetch_single_stock_app3 symbol isin provider now =
      ([("ISIN", isin), ("Symbol", symbol),
        ("Current Price", PyVal.str "Invalid Symbol"),
        ("52‑Week High", PyVal.str "Invalid"),
        ("52‑Week Low", PyVal.str "Invalid"),
        ("Today\x27s High", PyVal.str "Invalid"),
        ("Today\x27s Low", PyVal.str "Invalid"),
        ("Scraped At", PyVal.str now)], false) ∧
    statusOf (fetch_single_stock_app3 symbol isin provider now).1 =
      "invalidSymbol" ∧
    (fetch_single_stock_app symbol isin provider now).2 = true := by
  have hrec : fetch_single_stock_app3 symbol isin provider now =
      ([("ISIN", isin), ("Symbol", symbol),
        ("Current Price", PyVal.str "Invalid Symbol"),
        ("52‑Week High", PyVal.str "Invalid"),
        ("52‑Week Low", PyVal.str "Invalid"),
        ("Today\x27s High", PyVal.str "Invalid"),
        ("Today\x27s Low", PyVal.str "Invalid"),
        ("Scraped At", PyVal.str now)], false) := by
    rw [fetch_single_stock_app3.eq_def, if_pos h]
  refine ⟨hrec, ?_, ?_⟩
  · rw [hrec]; rfl
  · cases provider <;> rfl

/-- Witness for C1's amended statement at a concrete input: the `NaN`
symbol pandas produces for a missing cell. -/
theorem invalid_symbol_short_circuits_app3_only_witness :
    fetch_single_stock_app3 PyVal.nan (PyVal.str "INE002A01018")
        ProviderResult.err "2025-07-01 10:00:00" =
      ([("ISIN", PyVal.str "INE002A01018"), ("Symbol", PyVal.nan),
        ("Current Price", PyVal.str "Invalid Symbol"),
        ("52‑Week High", PyVal.str "Invalid"),
        ("52‑Week Low", PyVal.str "Invalid"),
        ("Today\x27s High", PyVal.str "Invalid"),
        ("Today\x27s Low", PyVal.str "Invalid"),
        ("Scraped At", PyVal.str "2025-07-01 10:00:00")], false) ∧
    statusOf (fetch_single_stock_app3 PyVal.nan (PyVal.str "INE002A01018")
        ProviderResult.err "2025-07-01 10:00:00").1 = "invalidSymbol" ∧
    (fetch_single_stock_app PyVal.nan (PyVal.str "INE002A01018")
        ProviderResult.err "2025-07-01 10:00:00").2 = true :=
  invalid_symbol_short_circuits_app3_only PyVal.nan
    (PyVal.str "INE002A01018") ProviderResult.err "2025-07-01 10:00:00"
    (by decide)

/-- Counterexample to C1 as stated: in the `app.py` variant an empty
symbol does not short-circuit — the provider is consulted (second
component `true`), and when that interaction fails the record reads
`error`, not `invalidSymbol`. -/
theorem empty_symbol_not_short_circuited_in_app :
    (fetch_single_stock_app (PyVal.str "") (PyVal.str "INE000A01010")
      ProviderResult.err "2026-10-12").2 = true ∧
    statusOf (fetch_single_stock_app (PyVal.str "") (PyVal.str "INE000A01010")
      ProviderResult.err "2026-10-12").1 = "error" := by decide

/-- Claim C6 (corrected, amended): for a valid symbol and a non-empty
historical window, the `app3.py` record's today's high/low are the last
(most recent) session's `High`/`Low` rounded to 2 decimal places, while
the `app.py` record holds the same values unrounded. -/
theorem todays_range_from_most_recent_session
    (symbol isin : PyVal) (info : Info) (hist : List OhlcRow) (row : OhlcRow)
    (now : String) (hsym : (!truthy symbol || isna symbol) = false)
    (hlast : hist.getLast? = Option.some row) :
    ((fetch_single_stock_app3 symbol isin (ProviderResult.ok info hist)
        now).1).lookup "Today\x27s High" =
      Option.some (PyVal.num (pyRound2 row.high)) ∧
    ((fetch_single_stock_app3 symbol isin (ProviderResult.ok info hist)
        now).1).lookup "Today\x27s Low" =
      Option.some (PyVal.num (pyRound2 row.low)) ∧
    ((fetch_single_stock_app symbol isin (ProviderResult.ok info hist)
        now).1).lookup "Today\x27s High" =
      Option.some (PyVal.num row.high) ∧
    ((fetch_single_stock_app symbol isin (ProviderResult.ok info hist)
        now).1).lookup "Today\x27s Low" =
      Option.some (PyVal.num row.low) := by
  rw [fetch_single_stock_app3.eq_def, if_neg (by simp [hsym])]
  simp [fetch_single_stock_app, todayRange3, todayHigh1, todayLow1, hlast,
    List.lookup]

/-- Witness for C6's amended statement at a concrete input: a two-session
window whose last row needs rounding. -/
theorem todays_range_from_most_recent_session_witness :
    ((fetch_single_stock_app3 (PyVal.str "EXMP.NS") (PyVal.str "A1")
        (ProviderResult.ok
          ⟨Option.some 100, Option.some 120, Option.some 80⟩
          [⟨98, 95⟩, ⟨Rat.divInt 101239 1000, 99⟩])
        "2025-07-01 10:00:00").1).lookup "Today\x27s High" =
      Option.some (PyVal.num (pyRound2 (Rat.divInt 101239 1000))) ∧
    ((fetch_single_stock_app3 (PyVal.str "EXMP.NS") (PyVal.str "A1")
        (ProviderResult.ok
          ⟨Option.some 100, Option.some 120, Option.some 80⟩
          [⟨98, 95⟩, ⟨Rat.divInt 101239 1000, 99⟩])
        "2025-07-01 10:00:00").1).lookup "Today\x27s Low" =
      Option.some (PyVal.num (pyRound2 99)) ∧
    ((fetch_single_stock_app (PyVal.str "EXMP.NS") (PyVal.str "A1")
        (ProviderResult.ok
          ⟨Option.some 100, Option.some 120, Option.some 80⟩
          [⟨98, 95⟩, ⟨Rat.divInt 101239 1000, 99⟩])
        "2025-07-01 10:00:00").1).lookup "Today\x27s High" =
      Option.some (PyVal.num (Rat.divInt 101239 1000)) ∧
    ((fetch_single_stock_app (PyVal.str "EXMP.NS") (PyVal.str "A1")
        (ProviderResult.ok
          ⟨Option.some 100, Option.some 120, Option.some 80⟩
          [⟨98, 95⟩, ⟨Rat.divInt 101239 1000, 99⟩])
        "2025-07-01 10:00:00").1).lookup "Today\x27s Low" =
      Option.some (PyVal.num 99) :=
  todays_range_from_most_recent_session (PyVal.str "EXMP.NS")
    (PyVal.str "A1") ⟨Option.some 100, Option.some 120, Option.some 80⟩
    [⟨98, 95⟩, ⟨Rat.divInt 101239 1000, 99⟩] ⟨Rat.divInt 101239 1000, 99⟩
    "2025-07-01 10:00:00" (by decide) (by decide)

/-- Counterexample to C6 as stated: `app.py` (cited by the claim) stores
the last session's `High` unrounded — at `High = 101.239` the stored value
differs from the 2-decimal rounding. -/
theorem todays_high_unrounded_in_app :
    ((fetch_single_stock_app (PyVal.str "EXMP.NS") (PyVal.str "A1")
        (ProviderResult.ok
          ⟨Option.some 100, Option.some 120, Option.some 80⟩
          [⟨Rat.divInt 101239 1000, 99⟩]) "2026-10-12").1).lookup
      "Today\x27s High" = Option.some (PyVal.num (Rat.divInt 101239 1000)) ∧
    pyRound2 (Rat.divInt 101239 1000) ≠ Rat.divInt 101239 1000 := by decide

/-- Claim C7 (confirmed): with a valid symbol and an empty historical
window, both variants put the `"N/A"` unavailable sentinel into today's
high/low, and the record is not an error record (its status observation is
`ok`). -/
theorem empty_history_degrades_to_unavailable
    (symbol isin : PyVal) (info : Info) (now : String)
    (hsym : (!truthy symbol || isna symbol) = false) :
    ((fetch_single_stock_app3 symbol isin (ProviderResult.ok info [])
        now).1).lookup "Today\x27s High" = Option.some (PyVal.str "N/A") ∧
    ((fetch_single_stock_app3 symbol isin (ProviderResult.ok info [])
        now).1).lookup "Today\x27s Low" = Option.some (PyVal.str "N/A") ∧
    statusOf (fetch_single_stock_app3 symbol isin (ProviderResult.ok info [])
        now).1 = "ok" ∧
    ((fetch_single_stock_app symbol isin (ProviderResult.ok info [])
        now).1).lookup "Today\x27s High" = Option.some (PyVal.str "N/A") ∧
    ((fetch_single_stock_app symbol isin (ProviderResult.ok info [])
        now).1).lookup "Today\x27s Low" = Option.some (PyVal.str "N/A") ∧
    statusOf (fetch_single_stock_app symbol isin (ProviderResult.ok info [])
        now).1 = "ok" := by
  rw [fetch_single_stock_app3.eq_def, if_neg (by simp [hsym])]
  rcases info with ⟨rmp, hi52, lo52⟩
  cases rmp <;>
    simp [fetch_single_stock_app, statusOf, infoGet, todayRange3,
      todayHigh1, todayLow1, List.lookup]

/-- Witness for C7 at a concrete input: a holiday-empty window with a
present snapshot. -/
theorem empty_history_degrades_to_unavailable_witness :
    ((fetch_single_stock_app3 (PyVal.str "EXMP.NS") (PyVal.str "A1")
        (ProviderResult.ok
          ⟨Option.some 100, Option.some 120, Option.some 80⟩ [])
        "2025-07-01 10:00:00").1).lookup "Today\x27s High" =
      Option.some (PyVal.str "N/A") ∧
    ((fetch_single_stock_app3 (PyVal.str "EXMP.NS") (PyVal.str "A1")
        (ProviderResult.ok
          ⟨Option.some 100, Option.some 120, Option.some 80⟩ [])
        "2025-07-01 10:00:00").1).lookup "Today\x27s Low" =
      Option.some (PyVal.str "N/A") ∧
    statusOf (fetch_single_stock_app3 (PyVal.str "EXMP.NS") (PyVal.str "A1")
        (ProviderResult.ok
          ⟨Option.some 100, Option.some 120, Option.some 80⟩ [])
        "2025-07-01 10:00:00").1 = "ok" ∧
    ((fetch_single_stock_app (PyVal.str "EXMP.NS") (PyVal.str "A1")
        (ProviderResult.ok
          ⟨Option.some 100, Option.some 120, Option.some 80⟩ [])
        "2025-07-01 10:00:00").1).lookup "Today\x27s High" =
      Option.some (PyVal.str "N/A") ∧
    ((fetch_single_stock_app (PyVal.str "EXMP.NS") (PyVal.str "A1")
        (ProviderResult.ok
          ⟨Option.some 100, Option.some 120, Option.some 80⟩ [])
        "2025-07-01 10:00:00").1).lookup "Today\x27s Low" =
      Option.some (PyVal.str "N/A") ∧
    statusOf (fetch_single_stock_app (PyVal.str "EXMP.NS") (PyVal.str "A1")
        (ProviderResult.ok
          ⟨Option.some 100, Option.some 120, Option.some 80⟩ [])
        "2025-07-01 10:00:00").1 = "ok" :=
  empty_history_degrades_to_unavailable (PyVal.str "EXMP.NS")
    (PyVal.str "A1") ⟨Option.some 100, Option.some 120, Option.some 80⟩
    "2025-07-01 10:00:00" (by decide)

/-- Claim C8 (confirmed): with a valid symbol, each snapshot field of the
record is `info.get(key, "N/A")` of its own key — a missing key becomes
the `"N/A"` sentinel and a present key keeps its numeric value,
independently of the other keys, in both variants. -/
theorem snapshot_fields_degrade_independently
    (symbol isin : PyVal) (info : Info) (hist : List OhlcRow) (now : String)
    (hsym : (!truthy symbol || isna symbol) = false) :
    ((fetch_single_stock_app3 symbol isin (ProviderResult.ok info hist)
        now).1).lookup "Current Price" =
      Option.some (infoGet info.regularMarketPrice) ∧
    ((fetch_single_stock_app3 symbol isin (ProviderResult.ok info hist)
        now).1).lookup "52‑Week High" =
      Option.some (infoGet info.fiftyTwoWeekHigh) ∧
    ((fetch_single_stock_app3 symbol isin (ProviderResult.ok info hist)
        now).1).lookup "52‑Week Low" =
      Option.some (infoGet info.fiftyTwoWeekLow) ∧
    ((fetch_single_stock_app symbol isin (ProviderResult.ok info hist)
        now).1).lookup "Current Price" =
      Option.some (infoGet info.regularMarketPrice) ∧
    ((fetch_single_stock_app symbol isin (ProviderResult.ok info hist)
        now).1).lookup "52 Week High" =
      Option.some (infoGet info.fiftyTwoWeekHigh) ∧
    ((fetch_single_stock_app symbol isin (ProviderResult.ok info hist)
        now).1).lookup "52 Week Low" =
      Option.some (infoGet info.fiftyTwoWeekLow) ∧
    infoGet Option.none = PyVal.str "N/A" ∧
    ∀ v : ℚ, infoGet (Option.some v) = PyVal.num v := by
  rw [fetch_single_stock_app3.eq_def, if_neg (by simp [hsym])]
  refine ⟨?_, ?_, ?_, ?_, ?_, ?_, rfl, fun v => rfl⟩ <;>
    simp [fetch_single_stock_app, List.lookup]

/-- Witness for C8 at a concrete input: a snapshot missing
`fiftyTwoWeekHigh` while the other two fields are present. -/
theorem snapshot_fields_degrade_independently_witness :
    ((fetch_single_stock_app3 (PyVal.str "EXMP.NS") (PyVal.str "A1")
        (ProviderResult.ok
          ⟨Option.some (Rat.divInt 1005 10), Option.none, Option.some 80⟩
          [⟨101, 99⟩]) "2025-07-01 10:00:00").1).lookup "Current Price" =
      Option.some (PyVal.num (Rat.divInt 1005 10)) ∧
    ((fetch_single_stock_app3 (PyVal.str "EXMP.NS") (PyVal.str "A1")
        (ProviderResult.ok
          ⟨Option.some (Rat.divInt 1005 10), Option.none, Option.some 80⟩
          [⟨101, 99⟩]) "2025-07-01 10:00:00").1).lookup "52‑Week High" =
      Option.some (PyVal.str "N/A") ∧
    ((fetch_single_stock_app3 (PyVal.str "EXMP.NS") (PyVal.str "A1")
        (ProviderResult.ok
          ⟨Option.some (Rat.divInt 1005 10), Option.none, Option.some 80⟩
          [⟨101, 99⟩]) "2025-07-01 10:00:00").1).lookup "52‑Week Low" =
      Option.some (PyVal.num 80) ∧
    ((fetch_single_stock_app (PyVal.str "EXMP.NS") (PyVal.str "A1")
        (ProviderResult.ok
          ⟨Option.some (Rat.divInt 1005 10), Option.none, Option.some 80⟩
          [⟨101, 99⟩]) "2025-07-01 10:00:00").1).lookup "Current Price" =
      Option.some (PyVal.num (Rat.divInt 1005 10)) ∧
    ((fetch_single_stock_app (PyVal.str "EXMP.NS") (PyVal.str "A1")
        (ProviderResult.ok
          ⟨Option.some (Rat.divInt 1005 10), Option.none, Option.some 80⟩
          [⟨101, 99⟩]) "2025-07-01 10:00:00").1).lookup "52 Week High" =
      Option.some (PyVal.str "N/A") ∧
    ((fetch_single_stock_app (PyVal.str "EXMP.NS") (PyVal.str "A1")
        (ProviderResult.ok
          ⟨Option.some (Rat.divInt 1005 10), Option.none, Option.some 80⟩
          [⟨101, 99⟩]) "2025-07-01 10:00:00").1).lookup "52 Week Low" =
      Option.some (PyVal.num 80) ∧
    infoGet Option.none = PyVal.str "N/A" ∧
    (∀ v : ℚ, infoGet (Option.some v) = PyVal.num v) :=
  snapshot_fields_degrade_independently (PyVal.str "EXMP.NS")
    (PyVal.str "A1")
    ⟨Option.some (Rat.divInt 1005 10), Option.none, Option.some 80⟩
    [⟨101, 99⟩] "2025-07-01 10:00:00" (by decide)

/-- Claim C9 (code divergence): the `app3.py` resolver issues its search
request with `timeout=5`, but the `app.py` resolver issues the same
request with no timeout at all — the claimed uniform ~5s bound does not
hold on the `app.py` path, which can hang indefinitely on a network
stall. -/
theorem search_request_timeout_divergence :
    (searchRequest_app "Example Corp").timeout = Option.none ∧
    (searchRequest_app3 "Example Corp").timeout = Option.some 5 ∧
    (searchRequest_app "Example Corp").url =
      (searchRequest_app3 "Example Corp").url :=
  ⟨rfl, rfl, rfl⟩

/-- Claim C10 (confirmed): on every branch of both variants the record
carries the variant's full fixed key set — including a timestamp key
(`"Scraped At"` in `app3.py`, `"Date"` in `app.py`) — and the `"ISIN"`
and `"Symbol"` entries are exactly the `isin` and `symbol` arguments, so
a caller can always re-associate a record with its input. -/
theorem record_identity_and_key_set
    (symbol isin : PyVal) (provider : ProviderResult) (now : String) :
    ((fetch_single_stock_app3 symbol isin provider now).1).map Prod.fst =
      ["ISIN", "Symbol", "Current Price", "52‑Week High", "52‑Week Low",
        "Today\x27s High", "Today\x27s Low", "Scraped At"] ∧
    ((fetch_single_stock_app3 symbol isin provider now).1).lookup "ISIN" =
      Option.some isin ∧
    ((fetch_single_stock_app3 symbol isin provider now).1).lookup "Symbol" =
      Option.some symbol ∧
    ((fetch_single_stock_app symbol isin provider now).1).map Prod.fst =
      ["ISIN", "Symbol", "Current Price", "52 Week High", "52 Week Low",
        "Today\x27s High", "Today\x27s Low", "Date"] ∧
    ((fetch_single_stock_app symbol isin provider now).1).lookup "ISIN" =
      Option.some isin ∧
    ((fetch_single_stock_app symbol isin provider now).1).lookup "Symbol" =
      Option.some symbol := by
  by_cases h : (!truthy symbol || isna symbol) = true
  · rw [fetch_single_stock_app3.eq_def, if_pos h]
    cases provider <;> simp [fetch_single_stock_app, List.lookup]
  · rw [fetch_single_stock_app3.eq_def, if_neg h]
    cases provider <;> simp [fetch_single_stock_app, List.lookup]

end StockScrape
